import Mathlib

/-!
Verification of the hello-world HTTP server in
`src/sites/hello-world-python/app.py` against its specification.

The whole program is (after the two module-loading lines that bring in `os`,
`HTTPServer` and `SimpleHTTPRequestHandler`):

```
class Handler(SimpleHTTPRequestHandler):
    def do_GET(self):
        self.send_response(200)
        self.send_header("Content-type", "text/html")
        self.end_headers()
        self.wfile.write(b"<h1>Hello from Python!</h1>")

port = int(os.environ.get("PORT", 3000))
print(f"Server running on port {port}")
HTTPServer(("", port), Handler).serve_forever()
```

We embed the handler as a pure function from requests to responses, the
port-resolution expression as a function of the optional `PORT` environment
value (with `none` as the result modelling the `ValueError` that `int`
raises on an unparseable string), and the three-line startup sequence as a
function that also takes the outcome of the socket bind as a parameter and
returns the lines printed to stdout next to the final outcome.
-/

/-- Test for the characters that the Python function `int(str)` strips from
both ends of its argument before parsing (the ASCII whitespace characters). -/
def isPySpace (c : Char) : Bool :=
  c = ' ' || c = '\t' || c = '\n' || c = '\r' || c = '\x0b' || c = '\x0c'

/-- Continue parsing a run of decimal digits in which a single underscore may
occur between two digits (Python 3 integer-literal syntax, as accepted by
`int(str)`); `acc` is the value of the digits consumed so far. -/
def pyDigitsAux : List Char → Nat → Option Nat
  | [], acc => some acc
  | '_' :: c :: rest, acc =>
      if c.isDigit then pyDigitsAux rest (acc * 10 + (c.toNat - 48)) else none
  | '_' :: [], _ => none
  | c :: rest, acc =>
      if c.isDigit then pyDigitsAux rest (acc * 10 + (c.toNat - 48)) else none

/-- Parse a nonempty run of decimal digits with optional single underscores
between digits, as the Python function `int(str)` accepts after the optional
sign. -/
def pyIntDigits : List Char → Option Nat
  | [] => none
  | c :: rest =>
      if c.isDigit then pyDigitsAux rest (c.toNat - 48) else none

/-- The Python expression `int(s)` for a string `s`: strip surrounding whitespace, accept an
optional leading `+` or `-` sign followed by a nonempty run of decimal digits
(single underscores allowed between digits). `none` models the `ValueError`
raised on any other string. -/
def pyIntOfString (s : String) : Option Int :=
  let cs := ((s.toList.dropWhile isPySpace).reverse.dropWhile isPySpace).reverse
  match cs with
  | '+' :: rest => (pyIntDigits rest).map (fun n => (n : Int))
  | '-' :: rest => (pyIntDigits rest).map (fun n => -(n : Int))
  | _ => (pyIntDigits cs).map (fun n => (n : Int))

/-- The expression `int(os.environ.get("PORT", 3000))` from `app.py` line 11,
as a function of the value of the `PORT` environment variable (`none` when
unset).  When `PORT` is unset, `os.environ.get` returns the integer default
`3000` and `int` is the identity on it; when `PORT` is set, `int` parses the
string and raises `ValueError` (modelled by `none`) if it cannot. -/
def port (env : Option String) : Option Int :=
  match env with
  | none => some (3000 : Int)
  | some s => pyIntOfString s

/-- An incoming HTTP request as visible to the handler: its method and its
request path. -/
structure Request where
  method : String
  path : String
deriving DecidableEq, Repr

/-- The response written by the handler: status code, headers in the order
sent, and the body bytes written to `wfile`. -/
structure Response where
  status : Nat
  headers : List (String × String)
  body : List Nat
deriving DecidableEq, Repr

/-- The bytes of the literal `b"<h1>Hello from Python!</h1>"` written by the
handler (all ASCII, one byte per character). -/
def helloBodyBytes : List Nat :=
  ("<h1>Hello from Python!</h1>".toList).map Char.toNat

/-- The one response the server ever produces: status 200, a single
`Content-type: text/html` header, and the fixed greeting body. -/
def greetingResponse : Response :=
  { status := 200
    headers := [("Content-type", "text/html")]
    body := helloBodyBytes }

namespace Handler

/-- `Handler.do_GET` from `app.py` lines 5–9: unconditionally send status 200,
the `Content-type: text/html` header, and write the greeting bytes.  The
method body never inspects `self.path` or any other request datum. -/
def do_GET (_req : Request) : Response :=
  greetingResponse

end Handler

/-- The process-wide state of the server: just the configuration value `port`
read once at startup (the program defines no other mutable state). -/
structure ServerState where
  port : Int
deriving DecidableEq, Repr

/-- Handling one GET request: the handler writes its response and touches no
process state. -/
def handleRequest (st : ServerState) (req : Request) : ServerState × Response :=
  (st, Handler.do_GET req)

/-- Serve a sequence of requests in order (e.g. repeated requests on a
persistent connection), threading the process state through and collecting
the responses. -/
def serveAll (st : ServerState) : List Request → ServerState × List Response
  | [] => (st, [])
  | req :: reqs =>
      let (st1, resp) := handleRequest st req
      let (st2, resps) := serveAll st1 reqs
      (st2, resp :: resps)

/-- Why the socket bind of `HTTPServer(("", port), Handler)` can fail. -/
inductive BindErr where
  | addrInUse
  | permDenied
deriving DecidableEq, Repr

/-- How startup can fail: the `ValueError` from `int` on line 11, or the
socket error from the bind on line 13 (carried unchanged, since nothing in
the program catches or transforms it). -/
inductive StartupErr where
  | valueError
  | bindFailed (e : BindErr)
deriving DecidableEq, Repr

/-- What startup did: the lines printed to stdout, in order, and either the
bound port or the uncaught error that terminated the process. -/
structure StartupResult where
  stdout : List String
  outcome : Except StartupErr Int
deriving Repr

/-- The f-string `f"Server running on port {port}"` printed on line 12. -/
def startupLine (p : Int) : String :=
  "Server running on port " ++ toString p

/-- The startup sequence of `app.py` lines 11–13 in source order: resolve the
port (a `ValueError` here aborts before anything is printed), print the
startup line, then bind the socket and serve.  `bind` is the outcome of the
bind syscall: `some e` when the OS refuses the port, `none` when the bind
succeeds (after which `serve_forever` runs; we record the bound port as the
outcome).  No exception handler exists anywhere in the program, so both
failures propagate to the result unchanged. -/
def startup (env : Option String) (bind : Option BindErr) : StartupResult :=
  match port env with
  | none => { stdout := [], outcome := .error .valueError }
  | some p =>
      match bind with
      | some e => { stdout := [startupLine p], outcome := .error (.bindFailed e) }
      | none => { stdout := [startupLine p], outcome := .ok p }

/-! ## Theorems settling the claims -/

/-- C1, counterexample: with `PORT` set to the unparseable string `"abc"`,
the port-resolution expression does not yield the default `3000`; `int`
raises a `ValueError` instead (modelled by `none`). -/
theorem port_unparseable_not_default : ¬ (port (some "abc") = some 3000) := by
  decide

/-- C1, amended: for every environment in which `PORT` is set to a string
that is not parseable as an integer, startup aborts with the `ValueError`
from `int` before printing anything; the default `3000` is used only when
`PORT` is absent. -/
theorem port_unparseable_raises (s : String) (bind : Option BindErr)
    (h : pyIntOfString s = none) :
    startup (some s) bind = { stdout := [], outcome := .error .valueError } := by
  simp [startup, port, h]

/-- C1, witness for the amended theorem at `PORT="abc"`. -/
theorem port_unparseable_raises_witness :
    pyIntOfString "abc" = none ∧
    startup (some "abc") none = { stdout := [], outcome := .error .valueError } :=
  ⟨by decide, port_unparseable_raises "abc" none (by decide)⟩

/-- C2, counterexample: the body written by the handler is not 28 bytes
long (it is 27 bytes). -/
theorem body_not_28_bytes :
    ¬ ((Handler.do_GET { method := "GET", path := "/" }).body.length = 28) := by
  decide

/-- C2, amended: for every GET request, the body written by the handler is
exactly the byte string of `<h1>Hello from Python!</h1>`, which is 27 bytes
long with no trailing newline (the last byte is not the LF byte 10). -/
theorem body_is_27_bytes (req : Request) :
    (Handler.do_GET req).body = helloBodyBytes ∧
    helloBodyBytes.length = 27 ∧
    ¬ (helloBodyBytes.getLast? = some 10) :=
  ⟨rfl, by decide, by decide⟩

/-- C3: for every HTTP GET request, regardless of its request path, the
handler produces status 200, a `Content-type` header equal to `text/html`,
and the greeting body. -/
theorem do_GET_response (path : String) :
    (Handler.do_GET { method := "GET", path := path }).status = 200 ∧
    (Handler.do_GET { method := "GET", path := path }).headers
      = [("Content-type", "text/html")] ∧
    (Handler.do_GET { method := "GET", path := path }).body = helloBodyBytes :=
  ⟨rfl, rfl, rfl⟩

/-- C4: with `PORT` unset, the resolved port is 3000 and startup binds
port 3000. -/
theorem port_default_3000 :
    port none = some 3000 ∧
    (startup none none).outcome = .ok 3000 ∧
    (startup none none).stdout = [startupLine 3000] :=
  ⟨rfl, rfl, rfl⟩

/-- C5: for every environment in which `PORT` is set to a parseable integer
string, the server binds that port and emits exactly one startup line, and
that line contains the decimal representation of the chosen port. -/
theorem startup_parseable_port (s : String) (p : Int)
    (h : pyIntOfString s = some p) :
    (startup (some s) none).outcome = .ok p ∧
    (startup (some s) none).stdout = [startupLine p] ∧
    (toString p).toList <:+: (startupLine p).toList := by
  refine ⟨?_, ?_, ?_⟩
  · simp [startup, port, h]
  · simp [startup, port, h]
  · have hl : (startupLine p).toList
        = "Server running on port ".toList ++ (toString p).toList := by
      simp [startupLine, String.toList]
    rw [hl]
    exact List.IsSuffix.isInfix (List.suffix_append _ _)

/-- C5, witness at `PORT="8080"`. -/
theorem startup_parseable_port_witness :
    pyIntOfString "8080" = some 8080 ∧
    ((startup (some "8080") none).outcome = .ok 8080 ∧
     (startup (some "8080") none).stdout = [startupLine 8080] ∧
     (toString (8080 : Int)).toList <:+: (startupLine 8080).toList) :=
  ⟨by decide, startup_parseable_port "8080" 8080 (by decide)⟩

/-- C6: two GET requests that differ only in their request path receive
identical responses. -/
theorem do_GET_path_independent (p₁ p₂ : String) :
    Handler.do_GET { method := "GET", path := p₁ }
      = Handler.do_GET { method := "GET", path := p₂ } :=
  rfl

/-- C7: serving any sequence of requests leaves the process state (the
configuration value `port`) unchanged and gives every request the identical
greeting response. -/
theorem serveAll_frame (st : ServerState) (reqs : List Request) :
    serveAll st reqs = (st, reqs.map fun _ => greetingResponse) := by
  induction reqs with
  | nil => rfl
  | cons r rs ih => simp [serveAll, handleRequest, Handler.do_GET, ih]

/-- C8: whenever the port resolves and the socket bind fails, the bind error
propagates to the startup outcome unchanged: nothing in the program catches,
retries, or recovers from it. -/
theorem bind_failure_uncaught (env : Option String) (p : Int) (e : BindErr)
    (h : port env = some p) :
    (startup env (some e)).outcome = .error (.bindFailed e) := by
  simp [startup, h]

/-- C8, witness: `PORT` unset and the bind refused with address-in-use. -/
theorem bind_failure_uncaught_witness :
    port none = some 3000 ∧
    (startup none (some .addrInUse)).outcome
      = .error (.bindFailed .addrInUse) :=
  ⟨rfl, bind_failure_uncaught none 3000 .addrInUse rfl⟩

/-- C9: the startup sequence is strictly ordered: if `PORT` parsing fails no
startup line is printed, and whenever the port resolves the startup line is
printed exactly once — also when the subsequent bind fails, so the line
precedes the bind failure. -/
theorem startup_ordered (env : Option String) (bind : Option BindErr) :
    (port env = none →
      startup env bind = { stdout := [], outcome := .error .valueError }) ∧
    (∀ p, port env = some p →
      (startup env bind).stdout = [startupLine p] ∧
      (bind = none → (startup env bind).outcome = .ok p) ∧
      (∀ e, bind = some e →
        (startup env bind).outcome = .error (.bindFailed e))) := by
  constructor
  · intro h
    simp [startup, h]
  · intro p hp
    refine ⟨?_, ?_, ?_⟩
    · cases bind <;> simp [startup, hp]
    · intro hb
      subst hb
      simp [startup, hp]
    · intro e hb
      subst hb
      simp [startup, hp]

/-- C9, witness: at `PORT="abc"` nothing is printed; with `PORT` unset and a
failing bind, the startup line for port 3000 was printed before the
failure. -/
theorem startup_ordered_witness :
    startup (some "abc") none = { stdout := [], outcome := .error .valueError } ∧
    (startup none (some .addrInUse)).stdout = [startupLine 3000] ∧
    (startup none (some .addrInUse)).outcome
      = .error (.bindFailed .addrInUse) := by
  refine ⟨(startup_ordered (some "abc") none).1 (by decide), ?_, ?_⟩
  · exact ((startup_ordered none (some .addrInUse)).2 3000 rfl).1
  · exact (((startup_ordered none (some .addrInUse)).2 3000 rfl).2.2)
      .addrInUse rfl

/-- C10: `PORT` parsing follows the Python `int()` semantics on strings:
surrounding whitespace and a leading sign are accepted, while the empty
string and a float literal are rejected at startup with a `ValueError`. -/
theorem pyInt_semantics :
    pyIntOfString " 8080 " = some 8080 ∧
    pyIntOfString "+8080" = some 8080 ∧
    pyIntOfString "" = none ∧
    pyIntOfString "3000.5" = none ∧
    port (some " 8080 ") = some 8080 ∧
    (startup (some "") none).outcome = .error .valueError :=
  ⟨by decide, by decide, by decide, by decide, by decide, rfl⟩
